import Mathlib

/-!
Shallow embedding of the trouter-cli image benchmark and security-scan
pipeline (src/lib/docker-performance.js and the scanner module) for
verification of its specification.  External container-engine commands are
modelled by oracles: each engine invocation is an Except Unit value
(error is a non-zero exit of the spawned command, ok carries the
captured stdout).  JavaScript numbers are modelled as rationals, with
Option tracking NaN where it can arise (a failed parseFloat).
-/

namespace Trouter

/-- Result of one engine command: captured stdout, or non-zero exit. -/
abbrev EngineResult := Except Unit String

/-! ## JavaScript primitives used by the source -/

/-- Math.round: round half toward positive infinity. -/
def jsRound (q : ℚ) : ℤ := ⌊q + 1/2⌋

/-- Numeric value of a digit run. -/
def digitsToNat (ds : List Char) : ℕ :=
  ds.foldl (fun n c => n * 10 + (c.toNat - '0'.toNat)) 0

/-- The scanning phase of parseFloat: skip leading whitespace, optional
sign, digits, optional dot and more digits.  Returns none when no number
is found (the NaN case); otherwise the sign flag and the integer and
fraction digit runs.  Exponents and Infinity never occur in this
inputs of this codebase. -/
def jsParseFloatParts (cs : List Char) : Option (Bool × List Char × List Char) :=
  let cs1 := cs.dropWhile (fun c => c = ' ' ∨ c = '\t' ∨ c = '\n' ∨ c = '\r')
  let signAndRest : Bool × List Char :=
    match cs1 with
    | '-' :: r => (true, r)
    | '+' :: r => (false, r)
    | _ => (false, cs1)
  let (d1, r1) := signAndRest.2.span Char.isDigit
  let d2 : List Char :=
    match r1 with
    | '.' :: r => (r.span Char.isDigit).1
    | _ => []
  if d1.isEmpty ∧ d2.isEmpty then none
  else some (signAndRest.1, d1, d2)

/-- parseFloat on a character list, none for NaN. -/
def jsParseFloatCore (cs : List Char) : Option ℚ :=
  (jsParseFloatParts cs).map fun p =>
    (if p.1 then (-1 : ℚ) else 1) *
      ((digitsToNat p.2.1 : ℚ) + (digitsToNat p.2.2 : ℚ) / (10 : ℚ) ^ p.2.2.length)

/-- JS String.split with a one-character separator: every occurrence splits,
empty pieces are kept. -/
def splitOnChar (sep : Char) : List Char → List (List Char)
  | [] => [[]]
  | c :: cs =>
    if c = sep then [] :: splitOnChar sep cs
    else
      match splitOnChar sep cs with
      | [] => [[c]]
      | p :: ps => (c :: p) :: ps

/-- JS String.replace with a one-character pattern and empty replacement:
removes the first occurrence only. -/
def replaceFirstChar (target : Char) : List Char → List Char
  | [] => []
  | c :: rest => if c = target then rest else c :: replaceFirstChar target rest

/-! ## Unit parsers (docker-performance.js lines 227-244, scanner parseSize)

The memory regex /(\d+\.?\d*)(B|KiB|MiB|GiB|TiB)/ is embedded literally:
leftmost match, greedy digit runs, then a unit alternative immediately
after the number.  Backtracking inside one start position can never create
a match the greedy pass misses, because every unit alternative begins with
a letter while the shortened positions all sit on a digit or a dot. -/

/-- Match the numeric part of the regex at the start of the list,
returning (matched characters of group 1, rest). -/
def matchMemNumber (cs : List Char) : Option (List Char × List Char) :=
  let (d1, r1) := cs.span Char.isDigit
  if d1.isEmpty then none
  else
    match r1 with
    | '.' :: r2 =>
      let (d3, r3) := r2.span Char.isDigit
      some (d1 ++ '.' :: d3, r3)
    | _ => some (d1, r1)

/-- Try the unit alternatives of the regex at the start of the list. -/
def matchMemUnit (cs : List Char) : Option (List Char) :=
  (["B", "KiB", "MiB", "GiB", "TiB"]).findSome? fun u =>
    if cs.take u.length = u.toList then some u.toList else none

/-- One attempt of the memory regex at a fixed start position:
group 1 (the number) and group 2 (the unit). -/
def memRegexAt (cs : List Char) : Option (List Char × List Char) :=
  match matchMemNumber cs with
  | none => none
  | some (g1, rest) =>
    match matchMemUnit rest with
    | none => none
    | some g2 => some (g1, g2)

/-- Leftmost search of the memory regex over the string. -/
def memRegexSearch : List Char → Option (List Char × List Char)
  | [] => none
  | c :: cs =>
    match memRegexAt (c :: cs) with
    | some m => some m
    | none => memRegexSearch cs

/-- The units table of parseMemorySize exactly as written in the source:
B maps to exponent 0, KiB to 1, MiB to 1, GiB to 2, TiB to 3. -/
def memUnitsTable (u : List Char) : Option ℕ :=
  if u = "B".toList then some 0
  else if u = "KiB".toList then some 1
  else if u = "MiB".toList then some 1
  else if u = "GiB".toList then some 2
  else if u = "TiB".toList then some 3
  else none

/-- parseMemorySize (docker-performance.js 227-231).  The source
destructures the regex result as [size, unit], so size receives the FULL
match (match[0]) and unit receives group 1 (the digits).  parseFloat(size)
then reads the leading number of the full match, and units[unit] looks the
digit string up in the table, which misses, so the fallback exponent 0 is
used.  A failed regex match destructures [] and parseFloat(undefined) is
NaN, modelled as none. -/
def parseMemorySizeCore (cs : List Char) : Option ℚ :=
  match memRegexSearch cs with
  | none => none
  | some (g1, g2) =>
    (jsParseFloatCore (g1 ++ g2)).map fun x =>
      x * (1024 : ℚ) ^ ((memUnitsTable g1).getD 0)

def parseMemorySize (s : String) : Option ℚ :=
  parseMemorySizeCore s.toList

/-- The loop of formatMemorySize: divide by 1024 while the value is at
least 1024 and a larger unit remains (units list has length 4).  The loop
runs at most 3 - idx times because every iteration requires idx < 3 and
increments idx, so it is phrased with that iteration count as structural
fuel. -/
def fmsLoopAux : ℕ → ℚ → ℕ → ℚ × ℕ
  | 0, size, idx => (size, idx)
  | fuel + 1, size, idx =>
    if 1024 ≤ size ∧ idx < 3 then fmsLoopAux fuel (size / 1024) (idx + 1)
    else (size, idx)

def fmsLoop (size : ℚ) (idx : ℕ) : ℚ × ℕ :=
  fmsLoopAux (3 - idx) size idx

/-- JS string of the number r / 100, as produced when interpolating
Math.round(size * 100) / 100 into a template string. -/
def decimal2String (r : ℤ) : String :=
  let sign := if r < 0 then "-" else ""
  let n := r.natAbs
  let whole := n / 100
  let frac := n % 100
  sign ++
    (if frac = 0 then toString whole
     else if frac % 10 = 0 then toString whole ++ "." ++ toString (frac / 10)
     else if frac < 10 then toString whole ++ ".0" ++ toString frac
     else toString whole ++ "." ++ toString frac)

/-- formatMemorySize (docker-performance.js 233-244). -/
def formatMemorySize (bytes : ℚ) : String :=
  let si := fmsLoop bytes 0
  decimal2String (jsRound (si.1 * 100)) ++ " " ++
    ((["B", "KiB", "MiB", "GiB"]).getD si.2 "B")

/-- formatMemorySize applied to a possibly-NaN number (NaN interpolates as
the string NaN, with the initial unit B). -/
def formatMemorySizeJs : Option ℚ → String
  | some q => formatMemorySize q
  | none => "NaN B"

/-- calculateMemoryEfficiency (docker-performance.js 246-254).  Arguments
may be NaN (none); every band comparison against NaN is false, so NaN
falls through to Poor, and NaN === 0 is false so the Unknown guard only
fires on a real zero total. -/
def calculateMemoryEfficiency (current total : Option ℚ) : String :=
  if total = some 0 then "Unknown"
  else
    match current, total with
    | some c, some t =>
      let e := c / t * 100
      if e < 10 then "Excellent"
      else if e < 25 then "Good"
      else if e < 50 then "Fair"
      else "Poor"
    | _, _ => "Poor"

/-! ## Memory probe (docker-performance.js 185-225) -/

/-- The object returned by measureMemoryUsage: current and total are the
strings produced by formatMemorySize, percentage is parseFloat of the
percent column (none is NaN). -/
structure MemoryReport where
  current : String
  total : String
  percentage : Option ℚ
  efficiency : String
deriving DecidableEq, Repr

/-- The pure processing measureMemoryUsage applies to the stats line: split
on the tab of the format string into usage and percent columns, split the
usage column on the slash, parse both sides with parseMemorySize, format
them back, parse the percent column with the percent sign removed, and
rate efficiency on the raw parsed numbers. -/
def processMemStats (stats : String) : MemoryReport :=
  let parts := splitOnChar '\t' stats.toList
  let memUsage := parts.getD 0 []
  let memPercent := parts.getD 1 []
  let sizes := (splitOnChar '/' memUsage).map parseMemorySizeCore
  let current := sizes.getD 0 none
  let total := sizes.getD 1 none
  { current := formatMemorySizeJs current
    total := formatMemorySizeJs total
    percentage := jsParseFloatCore (replaceFirstChar '%' memPercent)
    efficiency := calculateMemoryEfficiency current total }

/-- Engine commands a probe can issue for an ephemeral container, recorded
as an observable trace. -/
inductive Cmd
  | run (name : String)
  | stats (id : String)
  | stop (id : String)
  | rm (id : String)
deriving DecidableEq, Repr

def isStopCmd : Cmd → Bool
  | .stop _ => true
  | _ => false

def isRmCmd : Cmd → Bool
  | .rm _ => true
  | _ => false

/-- Outcomes of the engine commands the memory probe issues, in program
order: docker run -d (stdout is the container id), docker stats, docker
stop, docker rm. -/
structure MemOracle where
  runOutcome : EngineResult
  statsOutcome : EngineResult
  stopOutcome : Except Unit Unit
  rmOutcome : Except Unit Unit

/-- The sentinel measureMemoryUsage returns from its catch block. -/
def memSentinel : MemoryReport :=
  { current := "Unknown", total := "Unknown", percentage := some 0,
    efficiency := "Unknown" }

/-- measureMemoryUsage: run the container, read one stats sample, stop and
remove the container, then return the processed report; any throw lands in
the catch block which returns the sentinel.  The trace records each engine
command attempted.  Note that the stop and remove commands sit inside the
try block after the measurement, not in a finally. -/
def measureMemoryUsage (o : MemOracle) : MemoryReport × List Cmd :=
  match o.runOutcome with
  | .error _ => (memSentinel, [.run "memory-test"])
  | .ok cid =>
    match o.statsOutcome with
    | .error _ => (memSentinel, [.run "memory-test", .stats cid])
    | .ok stats =>
      match o.stopOutcome with
      | .error _ => (memSentinel, [.run "memory-test", .stats cid, .stop cid])
      | .ok _ =>
        match o.rmOutcome with
        | .error _ =>
          (memSentinel, [.run "memory-test", .stats cid, .stop cid, .rm cid])
        | .ok _ =>
          (processMemStats stats,
            [.run "memory-test", .stats cid, .stop cid, .rm cid])

/-! ## Sample aggregation (docker-performance.js 66-146) -/

/-- The metric record returned by measureBuildTime and measureStartupTime.
The all-iterations-failed sentinel in the source is a literal object with
no samples key, so the samples field is an Option, none meaning absent. -/
structure DurMetric where
  average : ℕ
  min : ℕ
  max : ℕ
  unit : String
  samples : Option ℕ
deriving DecidableEq, Repr

/-- The shared tail of both timing probes: the zeroed sentinel when no
iteration succeeded, otherwise Math.round of the arithmetic mean together
with Math.min and Math.max over the collected times. -/
def aggregateTimes : List ℕ → DurMetric
  | [] => { average := 0, min := 0, max := 0, unit := "ms", samples := none }
  | t :: ts =>
    { average := (jsRound (((t :: ts).sum : ℚ) / ((t :: ts).length : ℚ))).toNat
      min := ts.foldl Nat.min t
      max := ts.foldl Nat.max t
      unit := "ms"
      samples := some (t :: ts).length }

/-- Outcomes of one build-time iteration: the docker build (carrying the
measured wall-clock duration on success) and the docker rmi cleanup.  The
duration is pushed before the rmi runs, so a failing rmi does not drop the
sample. -/
structure BuildIterOracle where
  buildOutcome : Except Unit ℕ
  rmiOutcome : Except Unit Unit

/-- The times array collected by measureBuildTime: one entry per iteration
whose build succeeded. -/
def buildTimes (os : List BuildIterOracle) : List ℕ :=
  os.filterMap fun o => o.buildOutcome.toOption

/-- measureBuildTime over its iteration outcomes (the source runs 3
iterations). -/
def measureBuildTime (os : List BuildIterOracle) : DurMetric :=
  aggregateTimes (buildTimes os)

/-- Outcomes of one startup-time iteration, in program order: docker run
-d, the waitForContainer call, the measured duration, docker stop and
docker rm. -/
structure StartupIterOracle where
  runOutcome : EngineResult
  waitOutcome : Except Unit Unit
  duration : ℕ
  stopOutcome : Except Unit Unit
  rmOutcome : Except Unit Unit

/-- The time pushed by one startup iteration: present exactly when the run
and the readiness wait both succeeded (the push precedes the stop). -/
def startupIterTime (o : StartupIterOracle) : Option ℕ :=
  match o.runOutcome, o.waitOutcome with
  | .ok _, .ok _ => some o.duration
  | _, _ => none

def startupTimes (os : List StartupIterOracle) : List ℕ :=
  os.filterMap startupIterTime

/-- measureStartupTime over its iteration outcomes (the source runs 5
iterations). -/
def measureStartupTime (os : List StartupIterOracle) : DurMetric :=
  aggregateTimes (startupTimes os)

/-- Engine commands attempted by one startup iteration.  The stop and rm
sit inside the loop body try, after the readiness wait: a failed run or a
failed wait skips both, and a failed stop skips the rm. -/
def startupIterTrace (o : StartupIterOracle) : List Cmd :=
  match o.runOutcome with
  | .error _ => [.run "startup-test"]
  | .ok cid =>
    match o.waitOutcome with
    | .error _ => [.run "startup-test"]
    | .ok _ =>
      match o.stopOutcome with
      | .error _ => [.run "startup-test", .stop cid]
      | .ok _ => [.run "startup-test", .stop cid, .rm cid]

/-! ## Pipeline orchestration and image cleanup
(docker-performance.js 12-64 and the scanner module 13-61) -/

/-- cleanupTempImage: docker rmi -f inside a try whose catch ignores the
error, so it returns unit whatever the removal outcome. -/
def cleanupTempImage (_rmiOutcome : Except Unit Unit) : Unit := ()

/-- Outcomes of the two phases of a pipeline run that can throw: the
temporary image build, and the probe/assembly body of the try block. -/
structure PipelineOracle where
  buildOutcome : EngineResult
  bodyOutcome : Except Unit Unit

/-- testPerformance: resolve the image (the caller tag, or the freshly
built temporary tag), run the body, and on both the return path and the
rethrow path call cleanupTempImage exactly when no caller tag was given.
The second component lists the images passed to cleanupTempImage. -/
def testPerformance (imageTag : Option String) (o : PipelineOracle) :
    Except Unit Unit × List String :=
  let acquired : EngineResult :=
    match imageTag with
    | some t => .ok t
    | none => o.buildOutcome
  match acquired with
  | .error e => (.error e, [])
  | .ok imageToTest =>
    match o.bodyOutcome with
    | .ok _ => (.ok (), if imageTag.isNone then [imageToTest] else [])
    | .error e => (.error e, if imageTag.isNone then [imageToTest] else [])

/-- scanImage in the scanner module: textually the same acquisition,
try/catch and conditional cleanup shape as testPerformance. -/
def scanImage (imageTag : Option String) (o : PipelineOracle) :
    Except Unit Unit × List String :=
  let acquired : EngineResult :=
    match imageTag with
    | some t => .ok t
    | none => o.buildOutcome
  match acquired with
  | .error e => (.error e, [])
  | .ok imageToScan =>
    match o.bodyOutcome with
    | .ok _ => (.ok (), if imageTag.isNone then [imageToScan] else [])
    | .error e => (.error e, if imageTag.isNone then [imageToScan] else [])

/-! ## Readiness polling (docker-performance.js 148-183) -/

/-- Result of waitForContainer: true returned at a given poll iteration,
the container-failed-to-start throw at a given iteration, or the
startup-timeout throw. -/
inductive WaitResult
  | ready (iter : ℕ)
  | startFailure (iter : ℕ)
  | timeoutExpired
deriving DecidableEq, Repr

/-- The poll loop of waitForContainer.  status n and health n are the two
docker inspect calls of iteration n.  At iteration n the elapsed time is
500 n ms (each miss sleeps 500 ms), so the while guard elapsed < timeout
admits exactly ceil(timeout / 500) iterations, used here as structural
fuel.  A running status with a healthy or absent health check returns
true; a throwing health inspect is caught and also returns true; a
throwing status inspect is rethrown as the startup failure; anything else
sleeps and polls again. -/
def waitPoll (status health : ℕ → EngineResult) : ℕ → ℕ → WaitResult
  | 0, _ => .timeoutExpired
  | fuel + 1, n =>
    match status n with
    | .error _ => .startFailure n
    | .ok s =>
      if s = "running" then
        match health n with
        | .error _ => .ready n
        | .ok h =>
          if h = "healthy" ∨ h = "none" then .ready n
          else waitPoll status health fuel (n + 1)
      else waitPoll status health fuel (n + 1)

def waitForContainer (status health : ℕ → EngineResult) (timeout : ℕ) :
    WaitResult :=
  waitPoll status health ((timeout + 499) / 500) 0

/-! ## Recommendation engine (docker-performance.js 485-543) -/

structure Recommendation where
  category : String
  priority : String
  message : String
deriving DecidableEq, Repr

structure CPUReport where
  average : ℚ
  max : ℚ
  samples : ℕ
  efficiency : String
deriving DecidableEq, Repr

structure NetReport where
  average : ℚ
  unit : String
  status : String
deriving DecidableEq, Repr

structure DiskTestResult where
  speed : ℚ
  unit : String
  status : String
deriving DecidableEq, Repr

structure DiskReport where
  write : DiskTestResult
  read : DiskTestResult
  overall : String
deriving DecidableEq, Repr

/-- The completed performance report consumed by generateRecommendations. -/
structure Performance where
  image : String
  buildTime : DurMetric
  startupTime : DurMetric
  memoryUsage : MemoryReport
  cpuUsage : CPUReport
  networkLatency : NetReport
  diskIO : DiskReport
deriving DecidableEq, Repr

/-- A JS strict greater-than where the left side may be NaN: every
comparison against NaN is false. -/
def qGt (x : Option ℚ) (c : ℚ) : Bool :=
  match x with
  | none => false
  | some v => decide (c < v)

def buildRec : Recommendation :=
  { category := "Build", priority := "High",
    message := "Build time is slow. Consider using Docker layer caching and multi-stage builds." }

def startupRec : Recommendation :=
  { category := "Startup", priority := "High",
    message := "Startup time is slow. Optimize application initialization and consider health checks." }

def memoryRec : Recommendation :=
  { category := "Memory", priority := "High",
    message := "Memory usage is high. Profile memory leaks and optimize memory usage." }

def cpuRec : Recommendation :=
  { category := "CPU", priority := "Medium",
    message := "CPU usage is high. Consider optimizing algorithms and reducing computational overhead." }

def networkRec : Recommendation :=
  { category := "Network", priority := "Low",
    message := "Network latency is higher than expected. Check network configuration." }

def diskRec : Recommendation :=
  { category := "Disk", priority := "Medium",
    message := "Disk I/O performance is poor. Consider optimizing file operations and using faster storage." }

/-- generateRecommendations: a pure function of the completed report that
pushes one fixed record per crossed threshold, in source order. -/
def generateRecommendations (p : Performance) : List Recommendation :=
  (if 60000 < p.buildTime.average then [buildRec] else []) ++
  (if 10000 < p.startupTime.average then [startupRec] else []) ++
  (if qGt p.memoryUsage.percentage 80 then [memoryRec] else []) ++
  (if 50 < p.cpuUsage.average then [cpuRec] else []) ++
  (if p.networkLatency.status = "Success" ∧ 100 < p.networkLatency.average
    then [networkRec] else []) ++
  (if p.diskIO.overall = "Poor" then [diskRec] else [])

/-! ## Secret scan (scanner module 398-480) -/

/-- One record pushed into the secrets array (the match-count key of the
JS object is named matchCount here, its JS name being reserved syntax in
Lean). -/
structure SecretFinding where
  file : String
  type : String
  matchCount : ℕ
  severity : String
deriving DecidableEq, Repr

/-- Outcomes of the steps of scanSecrets, in program order: docker create,
docker cp (after the temp dir is created), whether the extracted app
directory exists, and the recursive directory scan.  The scan step carries
the findings pushed into the shared secrets array so far: ok means the
recursion finished, error means it threw partway (fs.readdir on an
unreadable subdirectory is not caught inside the recursion). -/
structure SecretOracle where
  createOutcome : EngineResult
  cpOutcome : Except Unit Unit
  appDirExists : Bool
  scanOutcome : Except (List SecretFinding) (List SecretFinding)

/-- scanSecrets: returns the findings list together with whether the
temporary extraction directory still exists when the function returns.
fs.remove(tempDir) is the last statement of the inner try, so any throw
after fs.ensureDir skips it; the inner finally only removes the container,
and the outer catch swallows the error and returns the secrets collected
so far. -/
def scanSecrets (o : SecretOracle) : List SecretFinding × Bool :=
  match o.createOutcome with
  | .error _ => ([], false)
  | .ok _cid =>
    match o.cpOutcome with
    | .error _ => ([], true)
    | .ok _ =>
      if o.appDirExists then
        match o.scanOutcome with
        | .ok fs => (fs, false)
        | .error fs => (fs, true)
      else ([], false)

/-! ## Vulnerability reports (scanner module 127-156, 304-310, 327-352) -/

structure VulnFinding where
  package : String
  version : String
  severity : String
  description : String
  fix : String
deriving DecidableEq, Repr

structure VulnReport where
  critical : List VulnFinding
  high : List VulnFinding
  medium : List VulnFinding
  low : List VulnFinding
  info : List VulnFinding
  total : ℕ
deriving DecidableEq, Repr

def emptyVulnReport : VulnReport :=
  { critical := [], high := [], medium := [], low := [], info := [], total := 0 }

/-- JS String.toLowerCase, written as a character-by-character map (the
inputs here are ASCII severity names). -/
def jsToLowerCase (s : String) : String :=
  String.mk (s.toList.map Char.toLower)

/-- categorizeVulnerability: lowercase the severity and keep it when it is
one of the five tiers, otherwise info. -/
def categorizeVulnerability (severity : String) : String :=
  let category := jsToLowerCase severity
  if category = "critical" ∨ category = "high" ∨ category = "medium" ∨
      category = "low" ∨ category = "info" then category
  else "info"

/-- vulnerabilities[category].push(vuln) followed by total++. -/
def addVuln (r : VulnReport) (v : VulnFinding) : VulnReport :=
  let category := categorizeVulnerability v.severity
  if category = "critical" then
    { r with critical := r.critical ++ [v], total := r.total + 1 }
  else if category = "high" then
    { r with high := r.high ++ [v], total := r.total + 1 }
  else if category = "medium" then
    { r with medium := r.medium ++ [v], total := r.total + 1 }
  else if category = "low" then
    { r with low := r.low ++ [v], total := r.total + 1 }
  else
    { r with info := r.info ++ [v], total := r.total + 1 }

/-- basicVulnerabilityScan: the heuristic findings are bucketed one by one
into the empty report (its failure path returns the empty report, whose
invariant is trivial). -/
def basicVulnerabilityScan (commonVulns : List VulnFinding) : VulnReport :=
  commonVulns.foldl addVuln emptyVulnReport

/-- One entry of the Vulnerabilities array of the trivy JSON output. -/
structure TrivyVuln where
  pkgName : String
  installedVersion : String
  severity : String
  description : String
  fixedVersion : String
deriving DecidableEq, Repr

def trivyToFinding (v : TrivyVuln) : VulnFinding :=
  { package := v.pkgName, version := v.installedVersion,
    severity := v.severity, description := v.description,
    fix := v.fixedVersion }

/-- parseTrivyResults: data.Results[0].Vulnerabilities when present (none
models a missing Results array), each entry mapped to a finding and
bucketed by its severity. -/
def parseTrivyResults (data : Option (List TrivyVuln)) : VulnReport :=
  match data with
  | none => emptyVulnReport
  | some vulns => vulns.foldl (fun r v => addVuln r (trivyToFinding v)) emptyVulnReport

/-- The sum of the five bucket sizes of a report. -/
def bucketsTotal (r : VulnReport) : ℕ :=
  r.critical.length + r.high.length + r.medium.length + r.low.length +
    r.info.length

/-- The report with average build time 65000 ms and every other metric
nominal, used by the recommendation scenario. -/
def slowBuildReport : Performance :=
  { image := "trouter-perf-test-1"
    buildTime := { average := 65000, min := 60000, max := 70000, unit := "ms", samples := some 3 }
    startupTime := { average := 3000, min := 2500, max := 3500, unit := "ms", samples := some 5 }
    memoryUsage := { current := "50 MiB", total := "1 GiB", percentage := some 5, efficiency := "Excellent" }
    cpuUsage := { average := 2, max := 5, samples := 10, efficiency := "Excellent" }
    networkLatency := { average := 20, unit := "ms", status := "Success" }
    diskIO :=
      { write := { speed := 120, unit := "MB/s", status := "Success" }
        read := { speed := 110, unit := "MB/s", status := "Success" }
        overall := "Excellent" } }

/-! # Theorems -/

/-! ## Helper lemmas -/

theorem foldlNatMin_le_init (ts : List ℕ) (t : ℕ) : ts.foldl Nat.min t ≤ t := by
  induction ts generalizing t with
  | nil => exact le_refl t
  | cons c cs ih => exact le_trans (ih (Nat.min t c)) (Nat.min_le_left t c)

theorem foldlNatMin_le_mem (ts : List ℕ) (t x : ℕ) (hx : x ∈ ts) :
    ts.foldl Nat.min t ≤ x := by
  induction ts generalizing t with
  | nil => cases hx
  | cons c cs ih =>
    rcases List.mem_cons.1 hx with h | h
    · subst h
      exact le_trans (foldlNatMin_le_init cs (Nat.min t x)) (Nat.min_le_right t x)
    · exact ih (Nat.min t c) h

theorem foldlNatMin_le (ts : List ℕ) (t x : ℕ) (hx : x ∈ t :: ts) :
    ts.foldl Nat.min t ≤ x := by
  rcases List.mem_cons.1 hx with h | h
  · subst h; exact foldlNatMin_le_init ts x
  · exact foldlNatMin_le_mem ts t x h

theorem foldlNatMin_mem (ts : List ℕ) (t : ℕ) : ts.foldl Nat.min t ∈ t :: ts := by
  induction ts generalizing t with
  | nil => exact List.mem_singleton.2 rfl
  | cons c cs ih =>
    have h := ih (Nat.min t c)
    rw [List.foldl_cons]
    rcases List.mem_cons.1 h with h1 | h1
    · have h2 : Nat.min t c = t ∨ Nat.min t c = c := min_choice t c
      rw [h1]
      rcases h2 with h3 | h3 <;> rw [h3]
      · exact List.mem_cons_self _ _
      · exact List.mem_cons.2 (Or.inr (List.mem_cons_self _ _))
    · exact List.mem_cons.2 (Or.inr (List.mem_cons.2 (Or.inr h1)))

theorem init_le_foldlNatMax (ts : List ℕ) (t : ℕ) : t ≤ ts.foldl Nat.max t := by
  induction ts generalizing t with
  | nil => exact le_refl t
  | cons c cs ih => exact le_trans (Nat.le_max_left t c) (ih (Nat.max t c))

theorem mem_le_foldlNatMax (ts : List ℕ) (t x : ℕ) (hx : x ∈ ts) :
    x ≤ ts.foldl Nat.max t := by
  induction ts generalizing t with
  | nil => cases hx
  | cons c cs ih =>
    rcases List.mem_cons.1 hx with h | h
    · subst h
      exact le_trans (Nat.le_max_right t x) (init_le_foldlNatMax cs (Nat.max t x))
    · exact ih (Nat.max t c) h

theorem le_foldlNatMax (ts : List ℕ) (t x : ℕ) (hx : x ∈ t :: ts) :
    x ≤ ts.foldl Nat.max t := by
  rcases List.mem_cons.1 hx with h | h
  · subst h; exact init_le_foldlNatMax ts x
  · exact mem_le_foldlNatMax ts t x h

theorem foldlNatMax_mem (ts : List ℕ) (t : ℕ) : ts.foldl Nat.max t ∈ t :: ts := by
  induction ts generalizing t with
  | nil => exact List.mem_singleton.2 rfl
  | cons c cs ih =>
    have h := ih (Nat.max t c)
    rw [List.foldl_cons]
    rcases List.mem_cons.1 h with h1 | h1
    · have h2 : Nat.max t c = t ∨ Nat.max t c = c := max_choice t c
      rw [h1]
      rcases h2 with h3 | h3 <;> rw [h3]
      · exact List.mem_cons_self _ _
      · exact List.mem_cons.2 (Or.inr (List.mem_cons_self _ _))
    · exact List.mem_cons.2 (Or.inr (List.mem_cons.2 (Or.inr h1)))

theorem length_mul_le_sum (l : List ℕ) (m : ℕ) (h : ∀ x ∈ l, m ≤ x) :
    m * l.length ≤ l.sum := by
  induction l with
  | nil => simp
  | cons a as ih =>
    have ha : m ≤ a := h a (List.mem_cons.2 (Or.inl rfl))
    have hs := ih fun x hx => h x (List.mem_cons.2 (Or.inr hx))
    simp only [List.length_cons, List.sum_cons, Nat.mul_succ]
    omega

theorem sum_le_length_mul (l : List ℕ) (m : ℕ) (h : ∀ x ∈ l, x ≤ m) :
    l.sum ≤ m * l.length := by
  induction l with
  | nil => simp
  | cons a as ih =>
    have ha : a ≤ m := h a (List.mem_cons.2 (Or.inl rfl))
    have hs := ih fun x hx => h x (List.mem_cons.2 (Or.inr hx))
    simp only [List.length_cons, List.sum_cons, Nat.mul_succ]
    omega

theorem jsRound_toNat_bounds (a b : ℕ) (q : ℚ) (h1 : (a : ℚ) ≤ q)
    (h2 : q ≤ (b : ℚ)) : a ≤ (jsRound q).toNat ∧ (jsRound q).toNat ≤ b := by
  have hfa : (a : ℤ) ≤ jsRound q := by
    rw [jsRound]
    have hle : (((a : ℤ) : ℚ)) ≤ q + 1/2 := by push_cast; linarith
    calc (a : ℤ) = ⌊(((a : ℤ) : ℚ))⌋ := (Int.floor_intCast a).symm
      _ ≤ ⌊q + 1/2⌋ := Int.floor_le_floor hle
  have hfb : jsRound q < (b : ℤ) + 1 := by
    rw [jsRound]
    apply Int.floor_lt.2
    push_cast
    linarith
  omega

theorem aggregateTimes_avg_in_range (t : ℕ) (ts : List ℕ) :
    (aggregateTimes (t :: ts)).min ≤ (aggregateTimes (t :: ts)).average ∧
    (aggregateTimes (t :: ts)).average ≤ (aggregateTimes (t :: ts)).max := by
  have h1 : (ts.foldl Nat.min t) * (t :: ts).length ≤ (t :: ts).sum :=
    length_mul_le_sum _ _ (fun x hx => foldlNatMin_le ts t x hx)
  have h2 : (t :: ts).sum ≤ (ts.foldl Nat.max t) * (t :: ts).length :=
    sum_le_length_mul _ _ (fun x hx => le_foldlNatMax ts t x hx)
  have hlen : (0 : ℚ) < ((t :: ts).length : ℚ) := by
    simp [List.length_cons]
    positivity
  have hq1 : ((ts.foldl Nat.min t : ℕ) : ℚ) ≤
      ((t :: ts).sum : ℚ) / ((t :: ts).length : ℚ) := by
    rw [le_div_iff₀ hlen]
    exact_mod_cast h1
  have hq2 : ((t :: ts).sum : ℚ) / ((t :: ts).length : ℚ) ≤
      ((ts.foldl Nat.max t : ℕ) : ℚ) := by
    rw [div_le_iff₀ hlen]
    exact_mod_cast h2
  exact jsRound_toNat_bounds _ _ _ hq1 hq2

theorem aggregateTimes_perm {l1 l2 : List ℕ} (h : l1.Perm l2) :
    aggregateTimes l1 = aggregateTimes l2 := by
  cases l1 with
  | nil =>
    rw [List.Perm.nil_eq h]
  | cons t1 ts1 =>
    cases l2 with
    | nil => exact absurd (List.Perm.nil_eq h.symm) (by simp)
    | cons t2 ts2 =>
      have hsum := h.sum_eq
      have hlen := h.length_eq
      have hm2 : ts2.foldl Nat.min t2 ∈ t1 :: ts1 :=
        h.mem_iff.2 (foldlNatMin_mem ts2 t2)
      have hm1 : ts1.foldl Nat.min t1 ∈ t2 :: ts2 :=
        h.mem_iff.1 (foldlNatMin_mem ts1 t1)
      have hmin : ts1.foldl Nat.min t1 = ts2.foldl Nat.min t2 :=
        le_antisymm (foldlNatMin_le ts1 t1 _ hm2) (foldlNatMin_le ts2 t2 _ hm1)
      have hx2 : ts2.foldl Nat.max t2 ∈ t1 :: ts1 :=
        h.mem_iff.2 (foldlNatMax_mem ts2 t2)
      have hx1 : ts1.foldl Nat.max t1 ∈ t2 :: ts2 :=
        h.mem_iff.1 (foldlNatMax_mem ts1 t1)
      have hmax : ts1.foldl Nat.max t1 = ts2.foldl Nat.max t2 :=
        le_antisymm (le_foldlNatMax ts2 t2 _ hx1) (le_foldlNatMax ts1 t1 _ hx2)
      simp only [aggregateTimes, hsum, hlen, hmin, hmax]

theorem addVuln_counts (r : VulnReport) (v : VulnFinding) :
    (addVuln r v).total = r.total + 1 ∧
    bucketsTotal (addVuln r v) = bucketsTotal r + 1 := by
  simp only [addVuln, bucketsTotal]
  split_ifs <;> simp [List.length_append] <;> omega

theorem foldl_addVuln_counts (vs : List VulnFinding) (r : VulnReport) :
    (vs.foldl addVuln r).total = r.total + vs.length ∧
    bucketsTotal (vs.foldl addVuln r) = bucketsTotal r + vs.length := by
  induction vs generalizing r with
  | nil => simp
  | cons v vs ih =>
    rw [List.foldl_cons]
    have h1 := addVuln_counts r v
    have h2 := ih (addVuln r v)
    simp only [List.length_cons]
    omega

theorem foldl_addVuln_trivy_counts (vs : List TrivyVuln) (r : VulnReport) :
    ((vs.foldl (fun r v => addVuln r (trivyToFinding v)) r).total =
      r.total + vs.length) ∧
    bucketsTotal (vs.foldl (fun r v => addVuln r (trivyToFinding v)) r) =
      bucketsTotal r + vs.length := by
  induction vs generalizing r with
  | nil => simp
  | cons v vs ih =>
    rw [List.foldl_cons]
    have h1 := addVuln_counts r (trivyToFinding v)
    have h2 := ih (addVuln r (trivyToFinding v))
    simp only [List.length_cons]
    omega

theorem categorize_mem_five (s : String) :
    categorizeVulnerability s = "critical" ∨ categorizeVulnerability s = "high" ∨
    categorizeVulnerability s = "medium" ∨ categorizeVulnerability s = "low" ∨
    categorizeVulnerability s = "info" := by
  simp only [categorizeVulnerability]
  split
  · next h => exact h
  · simp

theorem mem_ite_singleton {α : Type} (a x : α) (c : Prop) [Decidable c] :
    (a ∈ (if c then [x] else [])) ↔ c ∧ a = x := by
  split
  · next hc => simp [hc]
  · next hc => simp [hc]

theorem waitPoll_stuck (status health : ℕ → EngineResult)
    (h : ∀ n, ∃ s, status n = .ok s ∧ s ≠ "running") :
    ∀ fuel n, waitPoll status health fuel n = .timeoutExpired := by
  intro fuel
  induction fuel with
  | zero => intro n; rfl
  | succ k ih =>
    intro n
    obtain ⟨s, hs, hne⟩ := h n
    rw [waitPoll, hs]
    simp only [hne, if_false]
    exact ih (n + 1)

/-! ## Claim theorems -/

/-- Claim C2: the spec asserts that every probe that starts a container
issues exactly one stop and one remove attempt on every exit path,
including paths where the readiness wait or the measurement step throws.
The code satisfies this on the success path but not on the failure paths:
when docker stats throws inside the memory probe, and when the readiness
wait throws inside a startup iteration, the container is started yet no
stop and no remove is ever attempted (the cleanup commands sit inside the
try after the measurement, with no finally); a failed stop also skips the
remove.  This theorem evaluates the probes on those oracles. -/
theorem C2_container_cleanup_attempts :
    ((measureMemoryUsage ⟨.ok "c1", .ok "s", .ok (), .ok ()⟩).2.countP isStopCmd = 1 ∧
      (measureMemoryUsage ⟨.ok "c1", .ok "s", .ok (), .ok ()⟩).2.countP isRmCmd = 1) ∧
    ((measureMemoryUsage ⟨.ok "c1", .error (), .ok (), .ok ()⟩).2 =
        [.run "memory-test", .stats "c1"] ∧
      (measureMemoryUsage ⟨.ok "c1", .error (), .ok (), .ok ()⟩).2.countP isStopCmd = 0 ∧
      (measureMemoryUsage ⟨.ok "c1", .error (), .ok (), .ok ()⟩).2.countP isRmCmd = 0) ∧
    (startupIterTrace ⟨.ok "c2", .error (), 0, .ok (), .ok ()⟩ = [.run "startup-test"] ∧
      startupIterTrace ⟨.ok "c2", .ok (), 1200, .error (), .ok ()⟩ =
        [.run "startup-test", .stop "c2"] ∧
      startupIterTrace ⟨.ok "c2", .ok (), 1200, .ok (), .ok ()⟩ =
        [.run "startup-test", .stop "c2", .rm "c2"]) := by
  decide

/-- Claim C3: for every pipeline run of testPerformance or scanImage with
a successfully acquired image, cleanupTempImage is invoked exactly once on
the system-built image when no caller tag was supplied, both on the return
path and on the rethrow path; with a caller-supplied tag it is never
invoked; and cleanupTempImage itself is total, returning unit whatever the
outcome of the underlying docker rmi. -/
theorem C3_temp_image_cleanup (o : PipelineOracle) (tag builtTag : String)
    (hb : o.buildOutcome = .ok builtTag) :
    (testPerformance none o).2 = [builtTag] ∧
    (testPerformance (some tag) o).2 = [] ∧
    (scanImage none o).2 = [builtTag] ∧
    (scanImage (some tag) o).2 = [] ∧
    ∀ r : Except Unit Unit, cleanupTempImage r = () := by
  cases h2 : o.bodyOutcome <;>
    refine ⟨?_, ?_, ?_, ?_, fun r => rfl⟩ <;>
      simp [testPerformance, scanImage, hb, h2]

/-- C3 witness: the cleanup bookkeeping at a concrete successful build and
a concrete caller-supplied tag. -/
theorem C3_temp_image_cleanup_witness :
    (testPerformance none ⟨.ok "trouter-perf-test-17", .ok ()⟩).2 =
      ["trouter-perf-test-17"] ∧
    (testPerformance (some "myimage:latest") ⟨.ok "trouter-perf-test-17", .ok ()⟩).2 =
      [] ∧
    (scanImage none ⟨.ok "trouter-perf-test-17", .ok ()⟩).2 =
      ["trouter-perf-test-17"] :=
  ⟨(C3_temp_image_cleanup ⟨.ok "trouter-perf-test-17", .ok ()⟩ "myimage:latest"
      "trouter-perf-test-17" rfl).1,
   (C3_temp_image_cleanup ⟨.ok "trouter-perf-test-17", .ok ()⟩ "myimage:latest"
      "trouter-perf-test-17" rfl).2.1,
   (C3_temp_image_cleanup ⟨.ok "trouter-perf-test-17", .ok ()⟩ "myimage:latest"
      "trouter-perf-test-17" rfl).2.2.1⟩

/-- Claim C5 counterexample: the claim states that when every iteration
fails the returned metric has sampleCount = 0.  In the source the
all-failed sentinel is the literal object with average, min, max and unit
only: it has no samples key at all, so the sample-count field is absent
(undefined), not 0. -/
theorem C5_allfail_counterexample :
    ¬ ((measureBuildTime (List.replicate 3 ⟨.error (), .ok ()⟩)).samples = some 0) := by
  decide

/-- Claim C5 as amended: if every iteration of a build-time or
startup-time measurement fails, the returned metric is the zeroed sentinel
with average = min = max = 0 and unit ms, whose sample-count field is
absent (the unavailability marker), and no average over the empty sample
set is computed. -/
theorem C5_allfail_sentinel (os : List BuildIterOracle)
    (ss : List StartupIterOracle) (hb : buildTimes os = [])
    (hs : startupTimes ss = []) :
    measureBuildTime os =
      { average := 0, min := 0, max := 0, unit := "ms", samples := none } ∧
    measureStartupTime ss =
      { average := 0, min := 0, max := 0, unit := "ms", samples := none } := by
  unfold measureBuildTime measureStartupTime
  rw [hb, hs]
  exact ⟨rfl, rfl⟩

/-- C5 witness: three failed build iterations and five failed startup
iterations produce the sentinels. -/
theorem C5_allfail_sentinel_witness :
    measureBuildTime (List.replicate 3 ⟨.error (), .ok ()⟩) =
      { average := 0, min := 0, max := 0, unit := "ms", samples := none } ∧
    measureStartupTime (List.replicate 5 ⟨.error (), .ok (), 0, .ok (), .ok ()⟩) =
      { average := 0, min := 0, max := 0, unit := "ms", samples := none } :=
  C5_allfail_sentinel (List.replicate 3 ⟨.error (), .ok ()⟩)
    (List.replicate 5 ⟨.error (), .ok (), 0, .ok (), .ok ()⟩)
    (by decide) (by decide)

/-- Claim C9: the spec asserts that any failing step of the secret scan
yields an empty finding list and that the temporary extraction directory
never outlives the scan.  The code returns the error-free empty list when
docker create or docker cp fails, but fs.remove(tempDir) is the last
statement of the inner try rather than a finally: when docker cp throws
after fs.ensureDir, and when the recursive scan throws partway, the
temporary directory still exists when scanSecrets returns, and a mid-scan
throw returns the partial (possibly non-empty) findings pushed so far.
This theorem evaluates all four paths. -/
theorem C9_secret_scan_paths :
    scanSecrets ⟨.error (), .ok (), true, .ok []⟩ = ([], false) ∧
    scanSecrets ⟨.ok "c1", .error (), true, .ok []⟩ = ([], true) ∧
    scanSecrets ⟨.ok "c1", .ok (), true,
        .error [⟨"config.js", "password", 2, "high"⟩]⟩ =
      ([⟨"config.js", "password", 2, "high"⟩], true) ∧
    scanSecrets ⟨.ok "c1", .ok (), true, .ok [⟨"a.js", "token", 1, "high"⟩]⟩ =
      ([⟨"a.js", "token", 1, "high"⟩], false) := by
  decide

/-- Claim C10: every vulnerability report built by the heuristic scan or
the trivy parser satisfies total = critical + high + medium + low + info
(bucket sizes), no finding is dropped (the bucket sizes sum to the number
of input findings), categorizeVulnerability always lands in one of the
five bucket keys so insertion cannot fail, and any severity string outside
the five tiers (case-insensitively) is bucketed under info. -/
theorem C10_vuln_report_invariant (vs : List VulnFinding)
    (ts : Option (List TrivyVuln)) (s : String)
    (hs : ¬ (jsToLowerCase s = "critical" ∨ jsToLowerCase s = "high" ∨
      jsToLowerCase s = "medium" ∨ jsToLowerCase s = "low" ∨
      jsToLowerCase s = "info")) :
    ((basicVulnerabilityScan vs).total = bucketsTotal (basicVulnerabilityScan vs) ∧
      bucketsTotal (basicVulnerabilityScan vs) = vs.length) ∧
    ((parseTrivyResults ts).total = bucketsTotal (parseTrivyResults ts) ∧
      bucketsTotal (parseTrivyResults ts) = (ts.getD []).length) ∧
    (∀ sev : String, categorizeVulnerability sev = "critical" ∨
      categorizeVulnerability sev = "high" ∨ categorizeVulnerability sev = "medium" ∨
      categorizeVulnerability sev = "low" ∨ categorizeVulnerability sev = "info") ∧
    categorizeVulnerability s = "info" := by
  have hbasic := foldl_addVuln_counts vs emptyVulnReport
  have hempty0 : emptyVulnReport.total = 0 := rfl
  have hempty1 : bucketsTotal emptyVulnReport = 0 := rfl
  refine ⟨⟨?_, ?_⟩, ?_, categorize_mem_five, ?_⟩
  · unfold basicVulnerabilityScan
    omega
  · unfold basicVulnerabilityScan
    omega
  · cases ts with
    | none => exact ⟨rfl, rfl⟩
    | some l =>
      have htv := foldl_addVuln_trivy_counts l emptyVulnReport
      simp only [parseTrivyResults, Option.getD_some]
      omega
  · simp only [categorizeVulnerability]
    rw [if_neg hs]

/-- C10 witness: a concrete finding list with an unrecognized severity and
a concrete trivy result list. -/
theorem C10_vuln_report_invariant_witness :
    (basicVulnerabilityScan
        [⟨"request", "2.88.0", "high", "Deprecated and vulnerable", "Update to latest version"⟩,
         ⟨"leftpad", "1.0.0", "WEIRD", "odd severity", "none"⟩]).total =
      bucketsTotal (basicVulnerabilityScan
        [⟨"request", "2.88.0", "high", "Deprecated and vulnerable", "Update to latest version"⟩,
         ⟨"leftpad", "1.0.0", "WEIRD", "odd severity", "none"⟩]) ∧
    categorizeVulnerability "WEIRD" = "info" :=
  ⟨(C10_vuln_report_invariant
      [⟨"request", "2.88.0", "high", "Deprecated and vulnerable", "Update to latest version"⟩,
       ⟨"leftpad", "1.0.0", "WEIRD", "odd severity", "none"⟩]
      (some [⟨"openssl", "1.0.1", "CRITICAL", "heartbleed", "1.0.2"⟩])
      "WEIRD" (by decide)).1.1,
   (C10_vuln_report_invariant
      [⟨"request", "2.88.0", "high", "Deprecated and vulnerable", "Update to latest version"⟩,
       ⟨"leftpad", "1.0.0", "WEIRD", "odd severity", "none"⟩]
      (some [⟨"openssl", "1.0.1", "CRITICAL", "heartbleed", "1.0.2"⟩])
      "WEIRD" (by decide)).2.2.2⟩

/-- Claim C8: waitForContainer polls at a fixed 500 ms interval and (a)
returns success at the very first poll iteration when the state is running
and the health inspect either reports none or throws (no health check
configured), without waiting out the timeout, (b) returns success when the
state is running and the health check reports healthy, (c) fails with the
container-startup error at the first iteration whose state inspection
throws, with no further polling, and (d) fails with the startup-timeout
error once the timeout admits no further iteration while the container
never reaches the running state. -/
theorem C8_wait_for_container (status health : ℕ → EngineResult)
    (timeout : ℕ) :
    (0 < timeout → status 0 = .ok "running" →
      (health 0 = .error () ∨ health 0 = .ok "none") →
      waitForContainer status health timeout = .ready 0) ∧
    (0 < timeout → status 0 = .ok "running" → health 0 = .ok "healthy" →
      waitForContainer status health timeout = .ready 0) ∧
    (0 < timeout → status 0 = .error () →
      waitForContainer status health timeout = .startFailure 0) ∧
    ((∀ n, ∃ s, status n = .ok s ∧ s ≠ "running") →
      waitForContainer status health timeout = .timeoutExpired) := by
  have hfuel : 0 < timeout → ∃ k, (timeout + 499) / 500 = k + 1 := by
    intro ht
    have hpos : 0 < (timeout + 499) / 500 := Nat.div_pos (by omega) (by omega)
    exact ⟨(timeout + 499) / 500 - 1, by omega⟩
  refine ⟨?_, ?_, ?_, ?_⟩
  · intro ht hst hh
    obtain ⟨k, hk⟩ := hfuel ht
    rw [waitForContainer, hk]
    rcases hh with h | h <;> simp [waitPoll, hst, h]
  · intro ht hst hh
    obtain ⟨k, hk⟩ := hfuel ht
    rw [waitForContainer, hk]
    simp [waitPoll, hst, hh]
  · intro ht hst
    obtain ⟨k, hk⟩ := hfuel ht
    rw [waitForContainer, hk]
    simp [waitPoll, hst]
  · intro hall
    rw [waitForContainer]
    exact waitPoll_stuck status health hall _ 0

/-- C8 witness: concrete oracles for the four behaviors, with the 30000
ms timeout the startup probe uses. -/
theorem C8_wait_for_container_witness :
    waitForContainer (fun _ => .ok "running") (fun _ => .ok "none") 30000 =
      .ready 0 ∧
    waitForContainer (fun _ => .ok "running") (fun _ => .ok "healthy") 30000 =
      .ready 0 ∧
    waitForContainer (fun _ => .error ()) (fun _ => .ok "none") 30000 =
      .startFailure 0 ∧
    waitForContainer (fun _ => .ok "created") (fun _ => .ok "none") 30000 =
      .timeoutExpired :=
  ⟨(C8_wait_for_container _ _ 30000).1 (by omega) rfl (Or.inr rfl),
   (C8_wait_for_container _ _ 30000).2.1 (by omega) rfl rfl,
   (C8_wait_for_container _ _ 30000).2.2.1 (by omega) rfl,
   (C8_wait_for_container _ _ 30000).2.2.2 (fun n => ⟨"created", rfl, by decide⟩)⟩

/-- Claim C7: generateRecommendations is a pure function of the completed
report that emits each recommendation exactly when its threshold is
crossed (build average over 60000 ms at High, startup average over 10000
ms at High, memory percentage over 80 at High, CPU average over 50 at
Medium, network Success with average latency over 100 ms at Low, disk
overall Poor at Medium), and the report with average build time 65000 ms
and all other metrics nominal yields exactly the single Build/High
recommendation. -/
theorem C7_recommendation_thresholds (p : Performance) :
    (buildRec ∈ generateRecommendations p ↔ 60000 < p.buildTime.average) ∧
    (startupRec ∈ generateRecommendations p ↔ 10000 < p.startupTime.average) ∧
    (memoryRec ∈ generateRecommendations p ↔ qGt p.memoryUsage.percentage 80 = true) ∧
    (cpuRec ∈ generateRecommendations p ↔ 50 < p.cpuUsage.average) ∧
    (networkRec ∈ generateRecommendations p ↔
      (p.networkLatency.status = "Success" ∧ 100 < p.networkLatency.average)) ∧
    (diskRec ∈ generateRecommendations p ↔ p.diskIO.overall = "Poor") ∧
    generateRecommendations slowBuildReport = [buildRec] := by
  refine ⟨?_, ?_, ?_, ?_, ?_, ?_, ?_⟩
  · simp [generateRecommendations, List.mem_append, mem_ite_singleton,
      buildRec, startupRec, memoryRec, cpuRec, networkRec, diskRec]
  · simp [generateRecommendations, List.mem_append, mem_ite_singleton,
      buildRec, startupRec, memoryRec, cpuRec, networkRec, diskRec]
  · simp [generateRecommendations, List.mem_append, mem_ite_singleton,
      buildRec, startupRec, memoryRec, cpuRec, networkRec, diskRec]
  · simp [generateRecommendations, List.mem_append, mem_ite_singleton,
      buildRec, startupRec, memoryRec, cpuRec, networkRec, diskRec]
  · simp [generateRecommendations, List.mem_append, mem_ite_singleton,
      buildRec, startupRec, memoryRec, cpuRec, networkRec, diskRec]
  · simp [generateRecommendations, List.mem_append, mem_ite_singleton,
      buildRec, startupRec, memoryRec, cpuRec, networkRec, diskRec]
  · norm_num [generateRecommendations, slowBuildReport, qGt]
    decide

/-- C7 witness: the slow-build report crosses exactly the build
threshold. -/
theorem C7_recommendation_thresholds_witness :
    buildRec ∈ generateRecommendations slowBuildReport :=
  (C7_recommendation_thresholds slowBuildReport).1.mpr (by norm_num [slowBuildReport])

/-- Claim C6: the spec asserts the round trip
parseMemorySize(formatMemorySize(b)) ≈ b.  On the code the round trip
never succeeds: the formatter interpolates a space between the number and
the unit while the parser regex requires the unit to follow the digits
immediately, so the parse of any formatted value finds no match and
returns NaN (already at b = 0); independently, the destructuring bug makes
parseMemorySize ignore the unit entirely, so even the space-free engine
form 128MiB parses to 128 rather than 128 x 1024 squared. -/
theorem C6_roundtrip_failure :
    formatMemorySize 0 = "0 B" ∧
    parseMemorySize "0 B" = none ∧
    formatMemorySize ((128 : ℚ) * 1024 * 1024) = "128 MiB" ∧
    parseMemorySize "128 MiB" = none ∧
    parseMemorySize "128MiB" = some 128 := by
  have hf0 : formatMemorySize (0 : ℚ) = "0 B" := by
    rw [formatMemorySize]
    have hl : fmsLoop (0 : ℚ) 0 = (0, 0) := by
      rw [fmsLoop]
      norm_num [fmsLoopAux]
    rw [hl]
    have hr : jsRound ((0 : ℚ) * 100) = 0 := by
      rw [jsRound, Int.floor_eq_iff]
      norm_num
    rw [hr]
    decide
  have hf128 : formatMemorySize ((128 : ℚ) * 1024 * 1024) = "128 MiB" := by
    rw [formatMemorySize]
    have hl : fmsLoop ((128 : ℚ) * 1024 * 1024) 0 = (128, 2) := by
      rw [fmsLoop]
      norm_num [fmsLoopAux]
    rw [hl]
    have hr : jsRound ((128 : ℚ) * 100) = 12800 := by
      rw [jsRound, Int.floor_eq_iff]
      norm_num
    rw [hr]
    decide
  have hp0 : parseMemorySize "0 B" = none := by
    have h : memRegexSearch ("0 B".toList) = none := by decide
    simp only [parseMemorySize, parseMemorySizeCore, h]
  have hpsp : parseMemorySize "128 MiB" = none := by
    have h : memRegexSearch ("128 MiB".toList) = none := by decide
    simp only [parseMemorySize, parseMemorySizeCore, h]
  have hp128 : parseMemorySize "128MiB" = some 128 := by
    have h : memRegexSearch ("128MiB".toList) =
        some ("128".toList, "MiB".toList) := by decide
    have h5 : ("128".toList ++ "MiB".toList) = "128MiB".toList := by decide
    have h3 : jsParseFloatParts ("128MiB".toList) =
        some (false, "128".toList, ([] : List Char)) := by decide
    have h4 : digitsToNat ("128".toList) = 128 := by decide
    have h6 : digitsToNat ([] : List Char) = 0 := by decide
    have h2 : memUnitsTable ("128".toList) = none := by decide
    simp only [parseMemorySize, parseMemorySizeCore, h, h5, jsParseFloatCore,
      h3, h2, h4, h6, Option.map_some']
    norm_num
  exact ⟨hf0, hp0, hf128, hpsp, hp128⟩

/-- Claim C1: the spec asserts that parseMemorySize interprets KiB, MiB,
GiB, TiB as powers of 1024 and that measureMemoryUsage on the stats line
128MiB / 2GiB with 6.00 percent returns current 128 x 1024 squared bytes,
total 2 x 1024 cubed bytes, percentage 6, efficiency Excellent.  The code
disagrees except on the percentage: the destructuring slip [size, unit]
(instead of [, size, unit]) hands the digits to the units-table lookup, so
every unit gets exponent 0 (the table additionally maps MiB to 1024 not
1024 squared), giving current 128 bytes (formatted 128 B), total 2 bytes
(formatted 2 B), and an efficiency ratio of 6400 percent, rated Poor.
This theorem evaluates the probe on that stats line. -/
theorem C1_memory_stats_scenario :
    (measureMemoryUsage
        ⟨.ok "cid1", .ok "128MiB / 2GiB\t6.00%", .ok (), .ok ()⟩).1 =
      { current := "128 B", total := "2 B", percentage := some 6,
        efficiency := "Poor" } := by
  show processMemStats "128MiB / 2GiB\t6.00%" = _
  have hsplit : splitOnChar '\t' ("128MiB / 2GiB\t6.00%".toList) =
      ["128MiB / 2GiB".toList, "6.00%".toList] := by decide
  have hsplit2 : splitOnChar '/' ("128MiB / 2GiB".toList) =
      ["128MiB ".toList, " 2GiB".toList] := by decide
  have hp1 : parseMemorySizeCore ("128MiB ".toList) = some 128 := by
    have h : memRegexSearch ("128MiB ".toList) =
        some ("128".toList, "MiB".toList) := by decide
    have h5 : ("128".toList ++ "MiB".toList) = "128MiB".toList := by decide
    have h3 : jsParseFloatParts ("128MiB".toList) =
        some (false, "128".toList, ([] : List Char)) := by decide
    have h4 : digitsToNat ("128".toList) = 128 := by decide
    have h6 : digitsToNat ([] : List Char) = 0 := by decide
    have h2 : memUnitsTable ("128".toList) = none := by decide
    simp only [parseMemorySizeCore, h, h5, jsParseFloatCore, h3, h2, h4, h6,
      Option.map_some']
    norm_num
  have hp2 : parseMemorySizeCore (" 2GiB".toList) = some 2 := by
    have h : memRegexSearch (" 2GiB".toList) =
        some ("2".toList, "GiB".toList) := by decide
    have h5 : ("2".toList ++ "GiB".toList) = "2GiB".toList := by decide
    have h3 : jsParseFloatParts ("2GiB".toList) =
        some (false, "2".toList, ([] : List Char)) := by decide
    have h4 : digitsToNat ("2".toList) = 2 := by decide
    have h6 : digitsToNat ([] : List Char) = 0 := by decide
    have h2 : memUnitsTable ("2".toList) = none := by decide
    simp only [parseMemorySizeCore, h, h5, jsParseFloatCore, h3, h2, h4, h6,
      Option.map_some']
    norm_num
  have hfmt1 : formatMemorySizeJs (some 128) = "128 B" := by
    rw [formatMemorySizeJs, formatMemorySize]
    have hl : fmsLoop (128 : ℚ) 0 = (128, 0) := by
      rw [fmsLoop]
      norm_num [fmsLoopAux]
    rw [hl]
    have hr : jsRound ((128 : ℚ) * 100) = 12800 := by
      rw [jsRound, Int.floor_eq_iff]
      norm_num
    rw [hr]
    decide
  have hfmt2 : formatMemorySizeJs (some 2) = "2 B" := by
    rw [formatMemorySizeJs, formatMemorySize]
    have hl : fmsLoop (2 : ℚ) 0 = (2, 0) := by
      rw [fmsLoop]
      norm_num [fmsLoopAux]
    rw [hl]
    have hr : jsRound ((2 : ℚ) * 100) = 200 := by
      rw [jsRound, Int.floor_eq_iff]
      norm_num
    rw [hr]
    decide
  have hpct : jsParseFloatCore (replaceFirstChar '%' ("6.00%".toList)) =
      some 6 := by
    have h0 : replaceFirstChar '%' ("6.00%".toList) = "6.00".toList := by decide
    have h3 : jsParseFloatParts ("6.00".toList) =
        some (false, "6".toList, "00".toList) := by decide
    have h4 : digitsToNat ("6".toList) = 6 := by decide
    have h5 : digitsToNat ("00".toList) = 0 := by decide
    simp only [h0, jsParseFloatCore, h3, h4, h5, Option.map_some']
    norm_num
  have heff : calculateMemoryEfficiency (some 128) (some 2) = "Poor" := by
    simp only [calculateMemoryEfficiency]
    norm_num
  simp only [processMemStats, hsplit, hsplit2, List.map_cons, List.map_nil,
    List.getD_cons_zero, List.getD_cons_succ, hp1, hp2, hfmt1, hfmt2, hpct,
    heff]

/-- Claim C4: for every sequence of build-time or startup-time iterations
with at least one successful sample, the aggregated metric has samples
equal to the number of successes, min and max are the least and greatest
successful samples, the average is Math.round of the arithmetic mean of
the successful samples and therefore lies between min and max, and the
whole metric is invariant under reordering of the successful samples; the
samples 12000, 14500, 13200 ms aggregate to average 13233, min 12000, max
14500, sampleCount 3. -/
theorem C4_sample_aggregation (os os2 : List BuildIterOracle)
    (ss : List StartupIterOracle) (h : buildTimes os ≠ [])
    (hperm : (buildTimes os2).Perm (buildTimes os)) :
    ((measureBuildTime os).samples = some (buildTimes os).length ∧
      measureBuildTime os2 = measureBuildTime os) ∧
    ((measureBuildTime os).min ∈ buildTimes os ∧
      (∀ x ∈ buildTimes os, (measureBuildTime os).min ≤ x) ∧
      (measureBuildTime os).max ∈ buildTimes os ∧
      (∀ x ∈ buildTimes os, x ≤ (measureBuildTime os).max)) ∧
    ((measureBuildTime os).average =
        (jsRound (((buildTimes os).sum : ℚ) / ((buildTimes os).length : ℚ))).toNat ∧
      (measureBuildTime os).min ≤ (measureBuildTime os).average ∧
      (measureBuildTime os).average ≤ (measureBuildTime os).max) ∧
    measureStartupTime ss = aggregateTimes (startupTimes ss) ∧
    aggregateTimes [12000, 14500, 13200] =
      { average := 13233, min := 12000, max := 14500, unit := "ms",
        samples := some 3 } := by
  obtain ⟨t, ts, hl⟩ : ∃ t ts, buildTimes os = t :: ts := by
    cases hbt : buildTimes os with
    | nil => exact absurd hbt h
    | cons a as => exact ⟨a, as, rfl⟩
  have hperm2 : measureBuildTime os2 = measureBuildTime os :=
    aggregateTimes_perm hperm
  unfold measureBuildTime
  unfold measureBuildTime at hperm2
  rw [hl] at hperm2 ⊢
  refine ⟨⟨rfl, hperm2⟩, ⟨?_, ?_, ?_, ?_⟩, ⟨rfl, ?_, ?_⟩, rfl, ?_⟩
  · exact foldlNatMin_mem ts t
  · intro x hx
    exact foldlNatMin_le ts t x hx
  · exact foldlNatMax_mem ts t
  · intro x hx
    exact le_foldlNatMax ts t x hx
  · exact (aggregateTimes_avg_in_range t ts).1
  · exact (aggregateTimes_avg_in_range t ts).2
  · have hmin : ([14500, 13200] : List ℕ).foldl Nat.min 12000 = 12000 := by decide
    have hmax : ([14500, 13200] : List ℕ).foldl Nat.max 12000 = 14500 := by decide
    have hsum : (12000 :: [14500, 13200] : List ℕ).sum = 39700 := by decide
    have hlen : (12000 :: [14500, 13200] : List ℕ).length = 3 := by decide
    have havg : (jsRound (((39700 : ℕ) : ℚ) / ((3 : ℕ) : ℚ))).toNat = 13233 := by
      have hfl : jsRound (((39700 : ℕ) : ℚ) / ((3 : ℕ) : ℚ)) = 13233 := by
        rw [jsRound, Int.floor_eq_iff]
        push_cast
        norm_num
      rw [hfl]
      rfl
    simp only [aggregateTimes, hsum, hlen, hmin, hmax, havg]

/-- C4 witness: four build iterations, one failed, and the same successes
collected in another order. -/
theorem C4_sample_aggregation_witness :
    (measureBuildTime [⟨.ok 12000, .ok ()⟩, ⟨.error (), .ok ()⟩,
        ⟨.ok 14500, .ok ()⟩, ⟨.ok 13200, .ok ()⟩]).samples = some 3 ∧
    measureBuildTime [⟨.ok 13200, .ok ()⟩, ⟨.ok 12000, .ok ()⟩, ⟨.ok 14500, .ok ()⟩] =
      measureBuildTime [⟨.ok 12000, .ok ()⟩, ⟨.error (), .ok ()⟩,
        ⟨.ok 14500, .ok ()⟩, ⟨.ok 13200, .ok ()⟩] := by
  have h := C4_sample_aggregation
    [⟨.ok 12000, .ok ()⟩, ⟨.error (), .ok ()⟩, ⟨.ok 14500, .ok ()⟩, ⟨.ok 13200, .ok ()⟩]
    [⟨.ok 13200, .ok ()⟩, ⟨.ok 12000, .ok ()⟩, ⟨.ok 14500, .ok ()⟩]
    [] (by decide) (by decide)
  have h3 : (buildTimes [⟨.ok 12000, .ok ()⟩, ⟨.error (), .ok ()⟩,
      ⟨.ok 14500, .ok ()⟩, ⟨.ok 13200, .ok ()⟩]).length = 3 := by decide
  exact ⟨h3 ▸ h.1.1, h.1.2⟩

end Trouter
